import Mathlib

/-!
Shallow embedding of the zmanim module of py-libhdate (src/hdate/zmanim.py):
the day-transition evaluator (candle lighting, havdalah, issur melacha,
motzei), the low-accuracy solar solver, branch selection, construction-time
normalization, and the derivation of the full zmanim table.

Times are modelled as rational numbers of minutes from UTC midnight of the
instance's date.  The religious-day classification supplied by the external
calendar collaborator (HDate.is_shabbat / HDate.is_yom_tov for today and
tomorrow) is abstracted into four booleans carried in the state.
-/

/-- State of a `Zmanim` instance as seen by the day-transition properties
(`candle_lighting`, `havdalah`, `issur_melacha_in_effect`,
`motzei_shabbat_chag`): the four rest-day flags returned by the calendar
collaborator, the two solar markers these properties read
(`zmanim["sunset"]`, `zmanim["three_stars"]`), the two configured offsets,
and the evaluation instant `self.time`. -/
structure ZState where
  todayShabbat : Bool
  todayYomTov : Bool
  tomorrowShabbat : Bool
  tomorrowYomTov : Bool
  sunset : ℚ
  threeStars : ℚ
  candleOffset : ℚ
  havdalahOffset : ℚ
  time : ℚ
deriving DecidableEq, Repr

/-- `Zmanim._havdalah_datetime`: `three_stars` when the havdalah offset is 0,
otherwise `sunset + havdalah_offset`. -/
def havdalahDatetime (s : ZState) : ℚ :=
  if s.havdalahOffset = 0 then s.threeStars else s.sunset + s.havdalahOffset

/-- `Zmanim.candle_lighting`: if (today is Yom Tov or Shabbat) and tomorrow
is Yom Tov, return the havdalah time; else if tomorrow is Shabbat or Yom
Tov, return `sunset - candle_lighting_offset`; else `None`. -/
def candleLighting (s : ZState) : Option ℚ :=
  if (s.todayYomTov || s.todayShabbat) && s.tomorrowYomTov then
    some (havdalahDatetime s)
  else if s.tomorrowShabbat || s.tomorrowYomTov then
    some (s.sunset - s.candleOffset)
  else none

/-- `Zmanim.havdalah`: if today is Shabbat or Yom Tov then (if tomorrow is
Shabbat or Yom Tov then `None` else the havdalah time) else `None`. -/
def havdalah (s : ZState) : Option ℚ :=
  if s.todayShabbat || s.todayYomTov then
    if s.tomorrowShabbat || s.tomorrowYomTov then none
    else some (havdalahDatetime s)
  else none

/-- `Zmanim.issur_melacha_in_effect`: the three-guard cascade of the code,
comparing `self.time` against the public `havdalah` and `candle_lighting`
values. -/
def issurMelachaInEffect (s : ZState) : Bool :=
  if (s.todayShabbat || s.todayYomTov) && (s.tomorrowShabbat || s.tomorrowYomTov) then
    true
  else if (s.todayShabbat || s.todayYomTov)
      && (match havdalah s with
          | some h => decide (s.time < h)
          | none => false) then
    true
  else if (s.tomorrowShabbat || s.tomorrowYomTov)
      && (match candleLighting s with
          | some c => decide (c ≤ s.time)
          | none => false) then
    true
  else false

/-- `Zmanim.motzei_shabbat_chag`: `False` when `havdalah` is `None`; `False`
when today and tomorrow are both rest days; `True` when today is a rest day
and `self.time > self.havdalah`; `False` otherwise. -/
def motzeiShabbatChag (s : ZState) : Bool :=
  match havdalah s with
  | none => false
  | some h =>
    if (s.todayShabbat || s.todayYomTov) && (s.tomorrowShabbat || s.tomorrowYomTov) then
      false
    else if (s.todayShabbat || s.todayYomTov) && decide (h < s.time) then
      true
    else false

/-- "Today is a rest day" in the spec's sense: Shabbat or Yom Tov. -/
def todayRest (s : ZState) : Prop := s.todayShabbat = true ∨ s.todayYomTov = true

/-- "Tomorrow is a rest day" in the spec's sense: Shabbat or Yom Tov. -/
def tomorrowRest (s : ZState) : Prop := s.tomorrowShabbat = true ∨ s.tomorrowYomTov = true

instance (s : ZState) : Decidable (todayRest s) := by
  unfold todayRest; infer_instance

instance (s : ZState) : Decidable (tomorrowRest s) := by
  unfold tomorrowRest; infer_instance

/-- `candle_lighting` as the spec's words describe it (claim C2): if today
is a rest day and tomorrow is a rest day, the havdalah-equivalent value;
else if tomorrow is a rest day and today is not, `sunset - offset`; else
`None`. -/
def candleLightingSpec (s : ZState) : Option ℚ :=
  if (s.todayShabbat || s.todayYomTov) && (s.tomorrowShabbat || s.tomorrowYomTov) then
    some (havdalahDatetime s)
  else if (s.tomorrowShabbat || s.tomorrowYomTov) && !(s.todayShabbat || s.todayYomTov) then
    some (s.sunset - s.candleOffset)
  else none

/-- A state where today is Yom Tov (not Shabbat) and tomorrow is Shabbat
(not Yom Tov) — a festival falling on a Friday — with sunset at minute 1000,
three stars at minute 1040, the default 18-minute candle offset and a zero
havdalah offset. -/
def c2state : ZState := ⟨false, true, true, false, 1000, 1040, 18, 0, 0⟩

/-- A state where today is Shabbat and tomorrow is an ordinary day. -/
def c3state : ZState := ⟨true, false, false, false, 1000, 1040, 18, 0, 0⟩

/-- A state where today is Shabbat, tomorrow is an ordinary day, and the
evaluation instant (minute 2000) is after the havdalah value. -/
def c9state : ZState := ⟨true, false, false, false, 1000, 1040, 18, 0, 2000⟩

/-!
Low-accuracy solar solver (`Zmanim._get_utc_sun_time_deg`).

The transcendental intermediates of the NOAA formulas — the equation-of-time
correction `eqtime`, the inverse-cosine argument, and the hour angle already
converted to minutes (`720 * acos(arg) / pi`) — are abstracted into rational
parameters; the structural part of the function (the domain check of `acos`,
the `-720` sentinel, the linear combination with longitude and the Python
`int()` truncation) is embedded exactly.  `hourAngle` ranges over `[0, 720]`
because `acos` ranges over `[0, pi]`.
-/

/-- The transcendental intermediates of one `_get_utc_sun_time_deg` call:
the `acos` argument `cos(sunrise_angle)/(cos(lat)*cos(decl)) -
tan(lat)*tan(decl)` and the hour angle in minutes, `720 * acos(arg) / pi`. -/
structure AngleTrig where
  acosArg : ℚ
  hourAngle : ℚ
deriving DecidableEq, Repr

/-- Python `int()` applied to an exact rational value: truncation toward
zero, i.e. the truncating division of the numerator by the denominator. -/
def pyInt (q : ℚ) : ℤ := q.num.tdiv q.den

/-- `Zmanim._get_utc_sun_time_deg`: when the `acos` argument lies outside
`[-1, 1]` Python raises `ValueError` and the `except` branch returns the
sentinel `(-720, -720)`; otherwise the rising and setting times are
`int(720 - 4*longitude ∓ hour_angle - eqtime)`. -/
def getUtcSunTimeDeg (longitude eqtime : ℚ) (t : AngleTrig) : ℤ × ℤ :=
  if t.acosArg < -1 ∨ 1 < t.acosArg then
    (-720, -720)
  else
    (pyInt (720 - 4 * longitude - t.hourAngle - eqtime),
     pyInt (720 - 4 * longitude + t.hourAngle - eqtime))

/-- The branch decision of `Zmanim.__init__` (line 88): the astral observer
and sun are prepared iff the astral capability imported and `|latitude|`
is at most `MAX_LATITUDE_ASTRAL = 50`. -/
def useAstralInit (useAstral : Bool) (latitude : ℚ) : Bool :=
  useAstral && decide (|latitude| ≤ 50)

/-- The branch decision of `Zmanim.get_utc_sun_time_full` (line 353): the
low-accuracy solver is used iff the astral capability is missing or
`|latitude| > 50`. -/
def lowAccuracyAtCall (useAstral : Bool) (latitude : ℚ) : Bool :=
  !useAstral || decide (50 < |latitude|)

/-!
`Zmanim.get_utc_sun_time_full`, low-accuracy path: five solver calls at the
five altitudes (90.833, 106.1, 101.0, 96.0, 98.5) sharing the day's
`eqtime`, then the derivation of the full named table.  Python's `//` on
integers is floor division (`Int.fdiv`); the remaining arithmetic is exact
rational arithmetic on the mixed `int`/`float` values of the dict.
-/

/-- The five altitude calls' transcendental intermediates for one day:
`deg90833` drives sunrise/sunset, `deg1061` first light, `deg1010` talit,
`deg960` first stars, `deg985` three stars. -/
structure DayTrig where
  eqtime : ℚ
  deg90833 : AngleTrig
  deg1061 : AngleTrig
  deg1010 : AngleTrig
  deg960 : AngleTrig
  deg985 : AngleTrig
deriving DecidableEq, Repr

/-- `Zmanim.get_utc_sun_time_full` on the low-accuracy path: solver results,
`sun_hour = (sunset - sunrise) // 12`, `midday = (sunset + sunrise) // 2`,
`mga_sunhour = (midday - first_light) / 6`, and the full dict in its
source order. -/
def getUtcSunTimeFull (longitude : ℚ) (d : DayTrig) : List (String × ℚ) :=
  let sr := getUtcSunTimeDeg longitude d.eqtime d.deg90833
  let sunrise := sr.1
  let sunset := sr.2
  let first_light := (getUtcSunTimeDeg longitude d.eqtime d.deg1061).1
  let talit := (getUtcSunTimeDeg longitude d.eqtime d.deg1010).1
  let first_stars := (getUtcSunTimeDeg longitude d.eqtime d.deg960).2
  let three_stars := (getUtcSunTimeDeg longitude d.eqtime d.deg985).2
  let sun_hour := Int.fdiv (sunset - sunrise) 12
  let midday := Int.fdiv (sunset + sunrise) 2
  let mga_sunhour : ℚ := ((midday : ℚ) - (first_light : ℚ)) / 6
  [("sunrise", (sunrise : ℚ)),
   ("sunset", (sunset : ℚ)),
   ("sun_hour", (sun_hour : ℚ)),
   ("midday", (midday : ℚ)),
   ("first_light", (first_light : ℚ)),
   ("talit", (talit : ℚ)),
   ("first_stars", (first_stars : ℚ)),
   ("three_stars", (three_stars : ℚ)),
   ("plag_mincha", (sunset : ℚ) - 5/4 * (sun_hour : ℚ)),
   ("stars_out", (sunset : ℚ) + 18 * (sun_hour : ℚ) / 60),
   ("small_mincha", (sunrise : ℚ) + 19/2 * (sun_hour : ℚ)),
   ("big_mincha", (sunrise : ℚ) + 13/2 * (sun_hour : ℚ)),
   ("big_mincha_30", (midday : ℚ) + 30),
   ("mga_end_shma", (first_light : ℚ) + mga_sunhour * 3),
   ("gra_end_shma", (sunrise : ℚ) + (sun_hour : ℚ) * 3),
   ("mga_end_tfila", (first_light : ℚ) + mga_sunhour * 4),
   ("gra_end_tfila", (sunrise : ℚ) + (sun_hour : ℚ) * 4),
   ("rabbeinu_tam", (sunset : ℚ) + (sun_hour : ℚ) * 6/5),
   ("midnight", (midday : ℚ) + 12 * 60)]

/-!
Construction-time normalization (`Zmanim.__init__`, lines 42-81).

The moment argument is a `datetime` (date plus instant), a `date`, or
defaulted.  Python evaluates the default expression `dt.datetime.now()`
once, when the `def` statement runs at module load, so the default is a
fixed `datetime` carrying the module-load instant; a `date`-only argument
takes the `dt.datetime.now()` of line 79, evaluated at the construction
call.  `initTime` returns the `self.time` instant the constructed instance
carries.
-/

/-- The moment argument of `Zmanim.__init__`: a full `datetime` (modelled
by its instant) or a bare `date`. -/
inductive Moment where
  | dateTime (instant : ℚ)
  | dateOnly (day : ℤ)
deriving DecidableEq, Repr

/-- `self.time` after `Zmanim.__init__`: `moduleLoadNow` is the instant at
which the module's `def` line evaluated `dt.datetime.now()` (the baked-in
default), `callNow` the current instant of this construction call, and
`arg` the moment argument (`none` when omitted, so that the baked default
is used). -/
def initTime (moduleLoadNow callNow : ℚ) (arg : Option Moment) : ℚ :=
  match arg.getD (Moment.dateTime moduleLoadNow) with
  | Moment.dateTime instant => instant
  | Moment.dateOnly _ => callNow

/-- The sunrise produced by the low-accuracy path (the first component of
the altitude-90.833 solver call). -/
def lowSunrise (longitude : ℚ) (d : DayTrig) : ℤ :=
  (getUtcSunTimeDeg longitude d.eqtime d.deg90833).1

/-- The sunset produced by the low-accuracy path (the second component of
the altitude-90.833 solver call). -/
def lowSunset (longitude : ℚ) (d : DayTrig) : ℤ :=
  (getUtcSunTimeDeg longitude d.eqtime d.deg90833).2

/-- The names of the 19 zmanim returned by `get_utc_sun_time_full`, in the
order the source builds its dict. -/
def zmanimKeys : List String :=
  ["sunrise", "sunset", "sun_hour", "midday", "first_light", "talit",
   "first_stars", "three_stars", "plag_mincha", "stars_out", "small_mincha",
   "big_mincha", "big_mincha_30", "mga_end_shma", "gra_end_shma",
   "mga_end_tfila", "gra_end_tfila", "rabbeinu_tam", "midnight"]

/-- Polar conditions: every one of the five altitude calls has its `acos`
argument outside `[-1, 1]`, so every solver call takes the sentinel
branch. -/
def polarDay (d : DayTrig) : Prop :=
  (d.deg90833.acosArg < -1 ∨ 1 < d.deg90833.acosArg) ∧
  (d.deg1061.acosArg < -1 ∨ 1 < d.deg1061.acosArg) ∧
  (d.deg1010.acosArg < -1 ∨ 1 < d.deg1010.acosArg) ∧
  (d.deg960.acosArg < -1 ∨ 1 < d.deg960.acosArg) ∧
  (d.deg985.acosArg < -1 ∨ 1 < d.deg985.acosArg)

instance (d : DayTrig) : Decidable (polarDay d) := by
  unfold polarDay; infer_instance

/-- A day on which every altitude call is unsolvable (all `acos` arguments
equal to 2, as on polar night at every requested altitude). -/
def polarTrig : DayTrig := ⟨0, ⟨2, 0⟩, ⟨2, 0⟩, ⟨2, 0⟩, ⟨2, 0⟩, ⟨2, 0⟩⟩

/-- A solvable day at longitude 0 with `eqtime = 0` and an hour angle of
532 minutes for the 90.833-degree call, so that sunset minus sunrise is
1064 minutes, which is not divisible by 12. -/
def c4trig : DayTrig := ⟨0, ⟨0, 532⟩, ⟨0, 0⟩, ⟨0, 0⟩, ⟨0, 0⟩, ⟨0, 0⟩⟩

/-- Python `int()` truncates toward zero: floor for nonnegative values,
ceiling for negative ones. -/
theorem pyInt_eq (q : ℚ) : pyInt q = if 0 ≤ q then ⌊q⌋ else ⌈q⌉ := by
  unfold pyInt
  by_cases h : 0 ≤ q
  · rw [if_pos h, Rat.floor_def,
      Int.tdiv_eq_ediv (Rat.num_nonneg.mpr h) (Int.natCast_nonneg _)]
  · rw [if_neg h]
    have hq : 0 ≤ -q := by linarith [lt_of_not_le h]
    have hneg : (-q).num.tdiv ((-q).den : ℤ) = ⌊-q⌋ := by
      rw [Rat.floor_def,
        Int.tdiv_eq_ediv (Rat.num_nonneg.mpr hq) (Int.natCast_nonneg _)]
    rw [Rat.neg_num, Rat.neg_den, Int.neg_tdiv] at hneg
    have hc : ⌈q⌉ = -⌊-q⌋ := by
      conv_lhs => rw [show q = -(-q) by ring]
      rw [Int.ceil_neg]
    omega

/-- Truncation toward zero is monotone. -/
theorem pyInt_mono {a b : ℚ} (hab : a ≤ b) : pyInt a ≤ pyInt b := by
  rw [pyInt_eq, pyInt_eq]
  by_cases ha : 0 ≤ a
  · rw [if_pos ha, if_pos (le_trans ha hab)]
    exact Int.floor_mono hab
  · by_cases hb : 0 ≤ b
    · rw [if_neg ha, if_pos hb]
      have h1 : ⌈a⌉ ≤ 0 := Int.ceil_le.mpr (by exact_mod_cast le_of_lt (not_le.mp ha))
      have h2 : (0 : ℤ) ≤ ⌊b⌋ := Int.floor_nonneg.mpr hb
      omega
    · rw [if_neg ha, if_neg hb]
      exact Int.ceil_mono hab

/-- Integer floor division by a natural number agrees with the floor of the
exact rational quotient. -/
theorem fdiv_floorQ (a : ℤ) (b : ℕ) :
    Int.fdiv a (b : ℤ) = ⌊(a : ℚ) / ((b : ℤ) : ℚ)⌋ := by
  rw [show (((b : ℤ) : ℚ)) = ((b : ℕ) : ℚ) by push_cast; ring]
  rw [Rat.floor_intCast_div_natCast, Int.fdiv_eq_ediv _ (Int.natCast_nonneg b)]

/-- Claim C1: `issur_melacha_in_effect` is true exactly when today and
tomorrow are both rest days, or today is a rest day and a havdalah value
exists with the instant strictly before it, or tomorrow is a rest day and a
candle-lighting value exists with the instant at or after it; false in
every other case. -/
theorem issur_melacha_in_effect_iff (s : ZState) :
    issurMelachaInEffect s = true ↔
      (todayRest s ∧ tomorrowRest s) ∨
      (todayRest s ∧ ∃ h, havdalah s = some h ∧ s.time < h) ∨
      (tomorrowRest s ∧ ∃ c, candleLighting s = some c ∧ c ≤ s.time) := by
  obtain ⟨ts, ty, ms, my, sn, st, co, ho, tm⟩ := s
  cases ts <;> cases ty <;> cases ms <;> cases my <;>
    simp [issurMelachaInEffect, havdalah, candleLighting, todayRest, tomorrowRest]

/-- Claim C2 counterexample: when today is a festival and tomorrow is a
plain Shabbat, the code returns `sunset - candle_lighting_offset`
(minute 982), while the claim's description (both days rest days, hence
havdalah-equivalent) would give the three-stars value (minute 1040). -/
theorem candle_lighting_spec_counterexample :
    candleLighting c2state = some 982 ∧
    candleLightingSpec c2state = some 1040 ∧
    candleLighting c2state ≠ candleLightingSpec c2state := by
  norm_num [candleLighting, candleLightingSpec, c2state, havdalahDatetime]

/-- Claim C2 amended: `candle_lighting` returns the havdalah-equivalent
value whenever today is a rest day and tomorrow is Yom Tov (not merely
Shabbat); it returns `sunset - candle_lighting_offset` whenever tomorrow is
a rest day and the first case does not apply (today not a rest day, or
tomorrow a Shabbat that is not Yom Tov); and it returns none whenever
tomorrow is not a rest day. -/
theorem candle_lighting_cases (s : ZState) :
    (todayRest s ∧ s.tomorrowYomTov = true →
      candleLighting s = some (havdalahDatetime s)) ∧
    (tomorrowRest s ∧ ¬(todayRest s ∧ s.tomorrowYomTov = true) →
      candleLighting s = some (s.sunset - s.candleOffset)) ∧
    (¬ tomorrowRest s → candleLighting s = none) := by
  obtain ⟨ts, ty, ms, my, sn, st, co, ho, tm⟩ := s
  cases ts <;> cases ty <;> cases ms <;> cases my <;>
    simp [candleLighting, todayRest, tomorrowRest]

/-- Witness for the amended C2 at the festival-into-Shabbat state. -/
theorem candle_lighting_cases_witness :
    candleLighting c2state = some (c2state.sunset - c2state.candleOffset) :=
  (candle_lighting_cases c2state).2.1 (by decide)

/-- Claim C3: the public `havdalah` is defined exactly when today is a rest
day and tomorrow is not, and when defined it equals `three_stars` if the
havdalah offset is 0 and `sunset + offset` otherwise. -/
theorem havdalah_defined_iff (s : ZState) :
    ((havdalah s).isSome = true ↔ todayRest s ∧ ¬ tomorrowRest s) ∧
    (∀ h, havdalah s = some h →
      h = if s.havdalahOffset = 0 then s.threeStars
          else s.sunset + s.havdalahOffset) := by
  obtain ⟨ts, ty, ms, my, sn, st, co, ho, tm⟩ := s
  cases ts <;> cases ty <;> cases ms <;> cases my <;>
    simp [havdalah, havdalahDatetime, todayRest, tomorrowRest]

/-- Witness for C3 at a Shabbat-into-weekday state with zero offset: the
havdalah value is the three-stars marker, minute 1040. -/
theorem havdalah_defined_iff_witness :
    (1040 : ℚ) = if c3state.havdalahOffset = 0 then c3state.threeStars
        else c3state.sunset + c3state.havdalahOffset :=
  (havdalah_defined_iff c3state).2 1040
    (by simp [havdalah, c3state, havdalahDatetime])

/-- Claim C4 counterexample: at longitude 0 with an hour angle of 532
minutes, sunrise is minute 188 and sunset minute 1252, and the dict's
`sun_hour` is the floor-divided 88, not the exact quotient 1064/12. -/
theorem sun_hour_exact_counterexample :
    (getUtcSunTimeFull 0 c4trig).lookup "sunrise" = some 188 ∧
    (getUtcSunTimeFull 0 c4trig).lookup "sunset" = some 1252 ∧
    (getUtcSunTimeFull 0 c4trig).lookup "sun_hour" = some 88 ∧
    (88 : ℚ) ≠ (1252 - 188) / 12 := by
  refine ⟨?_, ?_, ?_, ?_⟩ <;>
    simp [getUtcSunTimeFull, getUtcSunTimeDeg, c4trig, List.lookup] <;>
    norm_num [pyInt, Int.fdiv]

/-- Claim C4 amended: `sun_hour` is the floor of (sunset - sunrise)/12 and
`midday` the floor of (sunset + sunrise)/2 — Python integer floor division,
not the exact rational quotient. -/
theorem sun_hour_midday_floor (longitude : ℚ) (d : DayTrig) :
    (getUtcSunTimeFull longitude d).lookup "sun_hour"
      = some ((⌊((lowSunset longitude d : ℚ) - (lowSunrise longitude d : ℚ)) / 12⌋ : ℤ) : ℚ) ∧
    (getUtcSunTimeFull longitude d).lookup "midday"
      = some ((⌊((lowSunset longitude d : ℚ) + (lowSunrise longitude d : ℚ)) / 2⌋ : ℤ) : ℚ) := by
  have h12 := fdiv_floorQ ((lowSunset longitude d) - (lowSunrise longitude d)) 12
  have h2 := fdiv_floorQ ((lowSunset longitude d) + (lowSunrise longitude d)) 2
  norm_num at h12 h2
  simp only [lowSunrise, lowSunset] at h12 h2
  constructor <;> simp [getUtcSunTimeFull, List.lookup]
  · exact h12
  · exact h2

/-- Claim C5 amended: when the `acos` argument falls outside `[-1, 1]`,
both returned values are the fixed numeric sentinel `-720` — an ordinary
minute value, not a marker distinct from legitimate outputs. -/
theorem unsolvable_sentinel (longitude eqtime : ℚ) (t : AngleTrig)
    (h : t.acosArg < -1 ∨ 1 < t.acosArg) :
    getUtcSunTimeDeg longitude eqtime t = (-720, -720) := by
  unfold getUtcSunTimeDeg
  rw [if_pos h]

/-- Witness for the amended C5 at an `acos` argument of 2. -/
theorem unsolvable_sentinel_witness :
    (1 : ℚ) < 2 ∧ getUtcSunTimeDeg 0 0 ⟨2, 0⟩ = (-720, -720) :=
  ⟨by decide, unsolvable_sentinel 0 0 ⟨2, 0⟩ (Or.inr (by decide))⟩

/-- Claim C5 counterexample: the sentinel is not distinct from legitimate
minute offsets.  At longitude 180 on a day where the sun exactly grazes the
requested altitude (`acos` argument -1, hence an hour angle of
720 = 720*acos(-1)/pi minutes) with a zero equation-of-time correction, the
solver takes the solvable branch and returns the rising time -720 — the
very sentinel value. -/
theorem sentinel_not_distinguished :
    ((-1 : ℚ) ≥ -1 ∧ (-1 : ℚ) ≤ 1) ∧
    (getUtcSunTimeDeg 180 0 ⟨-1, 720⟩).1 = -720 := by
  norm_num [getUtcSunTimeDeg, pyInt]

/-- Claim C6: the low-accuracy fallback tested inside
`get_utc_sun_time_full` is exactly the negation of the decision made at
construction, so the branch never varies between calls on one instance, and
the high-accuracy branch is selected iff the astral capability is available
and the absolute latitude is at most 50 degrees. -/
theorem astral_branch_selection (useAstral : Bool) (latitude : ℚ) :
    lowAccuracyAtCall useAstral latitude = !(useAstralInit useAstral latitude) ∧
    (useAstralInit useAstral latitude = true ↔ useAstral = true ∧ |latitude| ≤ 50) := by
  cases useAstral <;>
    simp [lowAccuracyAtCall, useAstralInit, not_le, ← decide_not]

/-- Claim C7: with the day's trigonometry fixed and the altitude solvable,
both solver outputs are monotonically decreasing (antitone) in the
east-positive longitude: increasing the longitude makes both events earlier
in UTC. -/
theorem sun_times_antitone_in_longitude (eqtime lon1 lon2 : ℚ) (t : AngleTrig)
    (hsolv : -1 ≤ t.acosArg ∧ t.acosArg ≤ 1) (hlon : lon1 ≤ lon2) :
    (getUtcSunTimeDeg lon2 eqtime t).1 ≤ (getUtcSunTimeDeg lon1 eqtime t).1 ∧
    (getUtcSunTimeDeg lon2 eqtime t).2 ≤ (getUtcSunTimeDeg lon1 eqtime t).2 := by
  have hc : ¬(t.acosArg < -1 ∨ 1 < t.acosArg) := by
    push_neg
    exact ⟨hsolv.1, hsolv.2⟩
  unfold getUtcSunTimeDeg
  rw [if_neg hc, if_neg hc]
  exact ⟨pyInt_mono (by linarith), pyInt_mono (by linarith)⟩

/-- Witness for C7: moving from longitude 0 to longitude 1 does not delay
either event. -/
theorem sun_times_antitone_witness :
    (getUtcSunTimeDeg 1 0 ⟨0, 100⟩).1 ≤ (getUtcSunTimeDeg 0 0 ⟨0, 100⟩).1 ∧
    (getUtcSunTimeDeg 1 0 ⟨0, 100⟩).2 ≤ (getUtcSunTimeDeg 0 0 ⟨0, 100⟩).2 :=
  sun_times_antitone_in_longitude 0 0 1 ⟨0, 100⟩ ⟨by decide, by decide⟩ (by decide)

/-- Claim C8 is a code bug: the default moment expression is evaluated once
at module load, so two constructions with the moment omitted, performed at
different current instants (200 and 300), both carry the stale module-load
instant 100 — while an explicit date-only argument does capture the current
instant of its own call. -/
theorem default_moment_is_stale :
    initTime 100 200 none = initTime 100 300 none ∧
    initTime 100 200 none = 100 ∧
    initTime 100 200 (some (Moment.dateOnly 0)) = 200 ∧
    initTime 100 300 (some (Moment.dateOnly 0)) = 300 ∧
    (200 : ℚ) ≠ 300 :=
  ⟨rfl, rfl, rfl, rfl, by norm_num⟩

/-- Claim C9: `motzei_shabbat_chag` is true exactly when the public
`havdalah` is defined and the instant is strictly after it; the both-rest-
days guard is redundant (`havdalah` is already `None` then), and a defined
`havdalah` already implies today is a rest day. -/
theorem motzei_iff (s : ZState) :
    (motzeiShabbatChag s = true ↔ ∃ h, havdalah s = some h ∧ h < s.time) ∧
    ((havdalah s).isSome = true → todayRest s) := by
  obtain ⟨ts, ty, ms, my, sn, st, co, ho, tm⟩ := s
  cases ts <;> cases ty <;> cases ms <;> cases my <;>
    simp [motzeiShabbatChag, havdalah, todayRest, tomorrowRest]

/-- Witness for C9 at a Shabbat-into-weekday state. -/
theorem motzei_iff_witness : todayRest c9state :=
  (motzei_iff c9state).2 (by simp [havdalah, c9state, havdalahDatetime])

/-- Claim C10: the low-accuracy path is total — the returned mapping always
contains all 19 named zmanim in order, and under polar conditions the -720
sentinel propagates into sunrise/sunset, turning `sun_hour` into the
ordinary-looking value 0 and `midday` into -720. -/
theorem get_utc_sun_time_full_total (longitude : ℚ) (d : DayTrig) :
    (getUtcSunTimeFull longitude d).map Prod.fst = zmanimKeys ∧
    (polarDay d →
      (getUtcSunTimeFull longitude d).lookup "sunrise" = some (-720) ∧
      (getUtcSunTimeFull longitude d).lookup "sunset" = some (-720) ∧
      (getUtcSunTimeFull longitude d).lookup "sun_hour" = some 0 ∧
      (getUtcSunTimeFull longitude d).lookup "midday" = some (-720)) := by
  constructor
  · rfl
  · rintro ⟨h1, h2, h3, h4, h5⟩
    simp [getUtcSunTimeFull, getUtcSunTimeDeg, List.lookup, h1, h2, h3, h4, h5]

/-- Witness for C10 on an all-sentinel polar day. -/
theorem get_utc_sun_time_full_total_witness :
    (getUtcSunTimeFull 35 polarTrig).map Prod.fst = zmanimKeys ∧
    (getUtcSunTimeFull 35 polarTrig).lookup "sun_hour" = some 0 :=
  ⟨(get_utc_sun_time_full_total 35 polarTrig).1,
   ((get_utc_sun_time_full_total 35 polarTrig).2 (by decide)).2.2.1⟩
